import Mathlib

/-!
Verification of the "Mystery Message" integration glue: the route-protection
middleware (`src/middleware.ts`), the memoized database-connection helper
(`dbConnect`), the credentials `authorize` callback, the accept-messages
GET/POST route handlers, and the message content validation schema.

Each TypeScript function is shallowly embedded as an executable Lean
definition; effects (the mongoose connection, the user collection, thrown
errors) become explicit state and `Except` values.
-/

/-! ## Path matching (`src/middleware.ts`)

`url.pathname.startsWith(s)` is string literal matching on the pathname.
Strings are compared through their character lists so that the standard
list lemmas about the prefix order apply. -/

/-- JS `path.startsWith(pre)`: `pre` is a literal prefix of `path`. -/
def pathStartsWith (path pre : String) : Bool :=
  pre.data.isPrefixOf path.data

/-- Result of the Next.js middleware: either a redirect to a target path or
`NextResponse.next()` (pass the request through). -/
inductive MwResult where
  | redirect (target : String)
  | next
deriving DecidableEq

/-- `middleware` from `src/middleware.ts`: with a session token, any path
matching `/sign-in`, `/sign-up`, `/verify` or `/` redirects to `/dashboard`;
without a token, `/dashboard` paths redirect to `/sign-in`; otherwise the
request passes through. `token` is the truthiness of `getToken(...)`. -/
def middleware (token : Bool) (pathname : String) : MwResult :=
  if token && (pathStartsWith pathname "/sign-in" || pathStartsWith pathname "/sign-up" ||
      pathStartsWith pathname "/verify" || pathStartsWith pathname "/") then
    MwResult.redirect "/dashboard"
  else if !token && pathStartsWith pathname "/dashboard" then
    MwResult.redirect "/sign-in"
  else
    MwResult.next

/-- The exported `config.matcher` of `src/middleware.ts`:
`['/sign-in', '/sign-up', '/', '/dashboard/:path*', '/verify/:path*']`.
A `:path*` pattern matches the bare segment and any sub-path. -/
def matchedPath (p : String) : Bool :=
  p == "/sign-in" || p == "/sign-up" || p == "/" ||
  p == "/dashboard" || pathStartsWith p "/dashboard/" ||
  p == "/verify" || pathStartsWith p "/verify/"

/-! ## Database connection helper (`dbConnect`)

The helper keeps a module-level `connection: {isConnected?: number}` object.
The guard is JS truthiness of `connection.isConnected`: absent or `0` is
falsy. `mongoose.connect` either resolves with a `readyState` number or
throws; on a throw the helper calls `process.exit(1)`. The outcome of a
single `mongoose.connect` attempt is passed in as an `Except` value. -/

/-- The module-level `connection: ConnectionObject` of the helper. -/
structure ConnectionObject where
  isConnected : Option Nat
deriving DecidableEq

/-- JS truthiness of the optional `isConnected` number. -/
def isTruthy : Option Nat → Bool
  | none => false
  | some n => n != 0

/-- Observable outcome of one `dbConnect()` call: whether `mongoose.connect`
was invoked, whether a connection was opened (the invocation resolved),
whether the process was terminated via `process.exit(1)`, and the
`connection` state afterwards. -/
structure DbConnectResult where
  calledConnect : Bool
  opened : Bool
  exited : Bool
  state : ConnectionObject
deriving DecidableEq

/-- `dbConnect` from the connection helper: return immediately when
`connection.isConnected` is truthy; otherwise attempt `mongoose.connect`,
record `db.connections[0].readyState` on success, and `process.exit(1)`
on failure. -/
def dbConnect (connectResult : Except String Nat) (conn : ConnectionObject) : DbConnectResult :=
  if isTruthy conn.isConnected then
    { calledConnect := false, opened := false, exited := false, state := conn }
  else
    match connectResult with
    | Except.ok readyState =>
        { calledConnect := true, opened := true, exited := false,
          state := { isConnected := some readyState } }
    | Except.error _ =>
        { calledConnect := true, opened := false, exited := true, state := conn }

/-- Number of connections opened by a sequence of `dbConnect()` calls run
from state `conn`, where the i-th call's `mongoose.connect` attempt would
yield the i-th list entry. `process.exit(1)` aborts the sequence. -/
def countOpens : List (Except String Nat) → ConnectionObject → Nat
  | [], _ => 0
  | r :: rs, conn =>
    let res := dbConnect r conn
    (if res.opened then 1 else 0) + (if res.exited then 0 else countOpens rs res.state)

/-! ## User documents and the credentials `authorize` callback

The `User` Mongo model itself is not in the excerpt; its fields are exactly
those the excerpt reads and writes: `_id`, `username`, `email`, `password`
(the stored bcrypt hash), `isVerified` and `isAcceptingMessage`. The user
collection is a list of documents; `findOne`/`findById` return the first
match, as in MongoDB. `bcrypt.compare` is an opaque boolean predicate
`bcompare password storedHash` passed in as a parameter. -/

/-- A persisted user document, with the fields the excerpt accesses. -/
structure UserDoc where
  _id : String
  username : String
  email : String
  password : String
  isVerified : Bool
  isAcceptingMessage : Bool
deriving DecidableEq

/-- `UserModel.findOne({$or: [{email: identifier}, {username: identifier}]})`:
first document whose email or username equals the identifier. -/
def findOne : List UserDoc → String → Option UserDoc
  | [], _ => none
  | u :: rest, identifier =>
    if u.email = identifier ∨ u.username = identifier then some u
    else findOne rest identifier

/-- The `authorize` callback of the credentials provider: look the user up by
email-or-username, reject unverified accounts, compare the password against
the stored hash, return the user on success and throw otherwise. The outer
`catch` rethrows every error as `new Error(err)`, whose message is the JS
stringification of the caught error. -/
def authorize (bcompare : String → String → Bool) (db : List UserDoc)
    (identifier password : String) : Except String UserDoc :=
  let inner : Except String UserDoc :=
    match findOne db identifier with
    | none => Except.error "User not found with this email/username"
    | some user =>
      if !user.isVerified then Except.error "Please verify your account first"
      else if bcompare password user.password then Except.ok user
      else Except.error "Incorrect Password"
  match inner with
  | Except.ok user => Except.ok user
  | Except.error e => Except.error ("Error: " ++ e)

/-! ## Accept-messages route handlers (`src/app/api/accept-messages/route.ts`)

The session is `Option SessionData` and `session.user` is itself optional,
mirroring the `!session || !session.user` guard. The request body of POST is
the outcome of `await req.json()` destructured to `acceptMessages`: a parse
failure there is an uncaught throw (it happens before the handler's `try`),
so the handlers return `Except`. The user collection is passed in and the
updated collection returned. -/

/-- The authenticated identity stored in the session (`user._id`). -/
structure SessionUser where
  _id : String
deriving DecidableEq

/-- A session as seen by `getServerSession`: may lack its `user` field. -/
structure SessionData where
  user : Option SessionUser
deriving DecidableEq

/-- A `Response.json(...)` payload: HTTP status plus the body fields any of
the two handlers emit (absent fields are `none`). -/
structure HResponse where
  status : Nat
  success : Bool
  message : Option String
  isAcceptingMessages : Option Bool
  updatedUser : Option UserDoc
deriving DecidableEq

/-- The `{success: false, message: "Not Authenticated"}` 401 response both
handlers return on a missing session. -/
def notAuthenticatedResp : HResponse :=
  { status := 401, success := false, message := some "Not Authenticated",
    isAcceptingMessages := none, updatedUser := none }

/-- `UserModel.findByIdAndUpdate(id, {isAcceptingMessage: b}, {new: true})`:
update the first document with the given `_id`, returning the updated
document and the updated collection. -/
def findByIdAndUpdate : List UserDoc → String → Bool → Option UserDoc × List UserDoc
  | [], _, _ => (none, [])
  | u :: rest, id, b =>
    if u._id = id then
      let u' := { u with isAcceptingMessage := b }
      (some u', u' :: rest)
    else
      let (r, rest') := findByIdAndUpdate rest id b
      (r, u :: rest')

/-- `UserModel.findById(id)`: first document with the given `_id`. -/
def findById : List UserDoc → String → Option UserDoc
  | [], _ => none
  | u :: rest, id => if u._id = id then some u else findById rest id

namespace AcceptMessages

/-- `POST /api/accept-messages`: 401 without a session, then read
`acceptMessages` from the body and `findByIdAndUpdate` the session user's
flag; 401 if no document was updated, 200 with the updated document
otherwise. Returns the response and the resulting collection. -/
def POST (session : Option SessionData) (body : Except String Bool)
    (db : List UserDoc) : Except String (HResponse × List UserDoc) :=
  match session with
  | none => Except.ok (notAuthenticatedResp, db)
  | some s =>
    match s.user with
    | none => Except.ok (notAuthenticatedResp, db)
    | some u =>
      match body with
      | Except.error e => Except.error e
      | Except.ok acceptMessages =>
        match findByIdAndUpdate db u._id acceptMessages with
        | (none, db') =>
          Except.ok
            ({ status := 401,
               success := false,
               message := some "Failed to update user status to accept messages",
               isAcceptingMessages := none,
               updatedUser := none },
             db')
        | (some updatedUser, db') =>
          Except.ok
            ({ status := 200,
               success := true,
               message := some "Updated user status to accept messages",
               isAcceptingMessages := none,
               updatedUser := some updatedUser },
             db')

/-- `GET /api/accept-messages`: 401 without a session, 500 when the session
user's document is missing, otherwise 200 with `isAcceptingMessages` set to
the document's `isAcceptingMessage` field. -/
def GET (session : Option SessionData) (db : List UserDoc) : HResponse :=
  match session with
  | none => notAuthenticatedResp
  | some s =>
    match s.user with
    | none => notAuthenticatedResp
    | some u =>
      match findById db u._id with
      | none =>
        { status := 500, success := false,
          message := some "Failed to found the user",
          isAcceptingMessages := none, updatedUser := none }
      | some foundUser =>
        { status := 200, success := true, message := none,
          isAcceptingMessages := some foundUser.isAcceptingMessage,
          updatedUser := none }

end AcceptMessages

/-! ## Message content validation schema

`z.object({content: z.string().min(10, ...).max(300, ...)})`: zod's `min`
and `max` are inclusive bounds on the string length. -/

/-- The input shape of the message schema: `{content: string}`. -/
structure MessageInput where
  content : String
deriving DecidableEq

/-- The `messageSchema` zod parse on `{content}`: `min(10)` then `max(300)`
with the schema's error messages, succeeding with the input. -/
def messageSchema (input : MessageInput) : Except String MessageInput :=
  if input.content.length < 10 then
    Except.error "Message should be atleast of 10 characters"
  else if input.content.length > 300 then
    Except.error "Message must not be greater than 300 characters"
  else Except.ok input

/-! ## Theorems -/

/-- Prefix matching is transitive: if `a` is a literal prefix of `b` and `b`
of `p`, then `a` is a literal prefix of `p`. -/
theorem pathStartsWith_mono (p a b : String)
    (hab : pathStartsWith b a = true) (hbp : pathStartsWith p b = true) :
    pathStartsWith p a = true := by
  unfold pathStartsWith at *
  rw [List.isPrefixOf_iff_prefix] at *
  exact hab.trans hbp

/-- Every path matched by the middleware `config.matcher` starts with `/`. -/
theorem matchedPath_starts_root (p : String) (hm : matchedPath p = true) :
    pathStartsWith p "/" = true := by
  simp only [matchedPath, Bool.or_eq_true, beq_iff_eq] at hm
  rcases hm with ((((((h | h) | h) | h) | h) | h) | h)
  · subst h; decide
  · subst h; decide
  · subst h; decide
  · subst h; decide
  · exact pathStartsWith_mono p "/" "/dashboard/" (by decide) h
  · subst h; decide
  · exact pathStartsWith_mono p "/" "/verify/" (by decide) h

/-- Claim C1: for every request matched by the middleware, a tokenless
request to a `/dashboard` path is redirected to `/sign-in`; a request with a
session token to a path starting with `/sign-in`, `/sign-up`, `/verify` or
`/` is redirected to `/dashboard`; otherwise the request passes through. -/
theorem middleware_route_protection (token : Bool) (p : String)
    (_hm : matchedPath p = true) :
    (token = false → pathStartsWith p "/dashboard" = true →
      middleware token p = MwResult.redirect "/sign-in") ∧
    (token = true →
      (pathStartsWith p "/sign-in" = true ∨ pathStartsWith p "/sign-up" = true ∨
       pathStartsWith p "/verify" = true ∨ pathStartsWith p "/" = true) →
      middleware token p = MwResult.redirect "/dashboard") ∧
    (¬ (token = false ∧ pathStartsWith p "/dashboard" = true) →
     ¬ (token = true ∧ (pathStartsWith p "/sign-in" = true ∨ pathStartsWith p "/sign-up" = true ∨
        pathStartsWith p "/verify" = true ∨ pathStartsWith p "/" = true)) →
      middleware token p = MwResult.next) := by
  refine ⟨?_, ?_, ?_⟩
  · intro h1 h2; subst h1; simp [middleware, h2]
  · intro h1 h2; subst h1
    rcases h2 with h | h | h | h <;> simp [middleware, h]
  · intro h1 h2
    cases token
    · have hd : pathStartsWith p "/dashboard" = false := by
        rcases Bool.eq_false_or_eq_true (pathStartsWith p "/dashboard") with h | h
        · exact absurd ⟨rfl, h⟩ h1
        · exact h
      simp [middleware, hd]
    · have hor : ¬ (pathStartsWith p "/sign-in" = true ∨ pathStartsWith p "/sign-up" = true ∨
          pathStartsWith p "/verify" = true ∨ pathStartsWith p "/" = true) :=
        fun hc => h2 ⟨rfl, hc⟩
      push_neg at hor
      obtain ⟨h3, h4, h5, h6⟩ := hor
      simp only [ne_eq, Bool.not_eq_true] at h3 h4 h5 h6
      simp [middleware, h3, h4, h5, h6]

/-- Witness for C1 at a concrete input: a tokenless request to `/dashboard`
is redirected to `/sign-in`. -/
theorem middleware_route_protection_witness :
    middleware false "/dashboard" = MwResult.redirect "/sign-in" :=
  (middleware_route_protection false "/dashboard" (by decide)).1 rfl (by decide)

/-- Claim C9: every request matched by the middleware that carries a session
token is redirected to `/dashboard`, whatever its path (including paths
already under `/dashboard`), because every matched path starts with `/`;
`NextResponse.next()` is only returned for tokenless requests to paths not
starting with `/dashboard`. -/
theorem middleware_token_forces_dashboard (p : String) (hm : matchedPath p = true) :
    middleware true p = MwResult.redirect "/dashboard" ∧
    (∀ token : Bool, middleware token p = MwResult.next →
      token = false ∧ pathStartsWith p "/dashboard" = false) := by
  have hroot : pathStartsWith p "/" = true := matchedPath_starts_root p hm
  constructor
  · simp [middleware, hroot]
  · intro token hnext
    cases token
    · refine ⟨rfl, ?_⟩
      rcases Bool.eq_false_or_eq_true (pathStartsWith p "/dashboard") with h | h
      · simp [middleware, h] at hnext
      · exact h
    · simp [middleware, hroot] at hnext

/-- Witness for C9 at a concrete input: an authenticated request to
`/dashboard/settings` is redirected to `/dashboard`. -/
theorem middleware_token_forces_dashboard_witness :
    middleware true "/dashboard/settings" = MwResult.redirect "/dashboard" :=
  (middleware_token_forces_dashboard "/dashboard/settings" (by decide)).1

/-- Once the connection state is truthy, no later `dbConnect` call in a
sequence opens a connection. -/
theorem countOpens_of_truthy (rs : List (Except String Nat)) (c : ConnectionObject)
    (h : isTruthy c.isConnected = true) : countOpens rs c = 0 := by
  induction rs with
  | nil => rfl
  | cons r rs ih => simp [countOpens, dbConnect, h, ih]

/-- Any sequence of `dbConnect` calls opens at most one connection, given
that a resolved `mongoose.connect` reports a nonzero `readyState`. -/
theorem countOpens_le_one (rs : List (Except String Nat)) (c : ConnectionObject)
    (hrs : ∀ n : Nat, Except.ok n ∈ rs → n ≠ 0) : countOpens rs c ≤ 1 := by
  induction rs generalizing c with
  | nil => simp [countOpens]
  | cons r rs ih =>
    rcases Bool.eq_false_or_eq_true (isTruthy c.isConnected) with hc | hc
    · simp [countOpens_of_truthy (r :: rs) c hc]
    · cases r with
      | error e => simp [countOpens, dbConnect, hc]
      | ok n =>
        have hn : n ≠ 0 := hrs n (List.mem_cons_self _ _)
        have ht : isTruthy (some n) = true := by simp [isTruthy, hn]
        simp [countOpens, dbConnect, hc, countOpens_of_truthy rs _ ht]

/-- Claim C5: a `dbConnect` call in a state with an established connection
(truthy `connection.isConnected`) does not call `mongoose.connect` and
leaves the state unchanged; consequently a whole sequence of `dbConnect`
calls from the initial state opens at most one connection (a resolved
`mongoose.connect` reports a nonzero `readyState`). -/
theorem dbConnect_single_connection (r : Except String Nat) (conn : ConnectionObject)
    (h : isTruthy conn.isConnected = true)
    (rs : List (Except String Nat)) (hrs : ∀ n : Nat, Except.ok n ∈ rs → n ≠ 0) :
    (dbConnect r conn).calledConnect = false ∧ (dbConnect r conn).state = conn ∧
    countOpens rs { isConnected := none } ≤ 1 := by
  refine ⟨?_, ?_, countOpens_le_one rs _ hrs⟩ <;> simp [dbConnect, h]

/-- Witness for C5 at a concrete input: an established state (readyState 1)
and a sequence of two would-be-successful connection attempts. -/
theorem dbConnect_single_connection_witness :
    (dbConnect (Except.ok 1) { isConnected := some 1 }).calledConnect = false ∧
    (dbConnect (Except.ok 1) { isConnected := some 1 }).state = { isConnected := some 1 } ∧
    countOpens [Except.ok 1, Except.ok 1] { isConnected := none } ≤ 1 :=
  dbConnect_single_connection (Except.ok 1) { isConnected := some 1 } (by decide)
    [Except.ok 1, Except.ok 1]
    (by
      intro n hn
      rcases List.mem_cons.mp hn with h | h
      · cases h; decide
      · rcases List.mem_singleton.mp h with h
        cases h; decide)

/-- Claim C7: when there is no established connection and the
`mongoose.connect` attempt fails, `dbConnect` terminates the process
(`process.exit(1)`) and opens no connection, so no request handler proceeds
past it. -/
theorem dbConnect_failure_terminates (conn : ConnectionObject) (e : String)
    (h : isTruthy conn.isConnected = false) :
    (dbConnect (Except.error e) conn).exited = true ∧
    (dbConnect (Except.error e) conn).opened = false := by
  simp [dbConnect, h]

/-- Witness for C7 at a concrete input: a fresh state and a failing
connection attempt. -/
theorem dbConnect_failure_terminates_witness :
    (dbConnect (Except.error "connection refused") { isConnected := none }).exited = true ∧
    (dbConnect (Except.error "connection refused") { isConnected := none }).opened = false :=
  dbConnect_failure_terminates { isConnected := none } "connection refused" (by decide)

/-- When `u` is the only document matching the identifier, `findOne`
returns it. -/
theorem findOne_of_unique (db : List UserDoc) (identifier : String) (u : UserDoc)
    (hmem : u ∈ db) (hmatch : u.email = identifier ∨ u.username = identifier)
    (huniq : ∀ v ∈ db, (v.email = identifier ∨ v.username = identifier) → v = u) :
    findOne db identifier = some u := by
  induction db with
  | nil => cases hmem
  | cons w rest ih =>
    by_cases hw : w.email = identifier ∨ w.username = identifier
    · have hwu : w = u := huniq w (List.mem_cons_self _ _) hw
      subst hwu
      rcases hw with h | h <;> simp [findOne, h]
    · have hne : u ≠ w := fun h => hw (h ▸ hmatch)
      have hmem' : u ∈ rest := by
        rcases List.mem_cons.mp hmem with h | h
        · exact absurd h hne
        · exact h
      have huniq' : ∀ v ∈ rest, (v.email = identifier ∨ v.username = identifier) → v = u :=
        fun v hv hmv => huniq v (List.mem_cons_of_mem _ hv) hmv
      simp [findOne, hw, ih hmem' huniq']

/-- Claim C2: a login with an identifier matching a stored user record (by
email or username, the record being the unique match), a verified account
and a password whose bcrypt comparison against the stored hash succeeds,
makes `authorize` return that user record. -/
theorem authorize_success (bcompare : String → String → Bool) (db : List UserDoc)
    (identifier password : String) (u : UserDoc)
    (hmem : u ∈ db) (hmatch : u.email = identifier ∨ u.username = identifier)
    (huniq : ∀ v ∈ db, (v.email = identifier ∨ v.username = identifier) → v = u)
    (hver : u.isVerified = true) (hpass : bcompare password u.password = true) :
    authorize bcompare db identifier password = Except.ok u := by
  have hfind := findOne_of_unique db identifier u hmem hmatch huniq
  simp [authorize, hfind, hver, hpass]

/-- A sample verified user document used by the concrete witnesses. -/
def sampleUser : UserDoc :=
  { _id := "id1", username := "alice", email := "alice@example.com",
    password := "hash1", isVerified := true, isAcceptingMessage := false }

/-- Witness for C2 at a concrete input: a one-user collection, username
login, matching password under literal-equality comparison. -/
theorem authorize_success_witness :
    authorize (fun p h => p == h) [sampleUser] "alice" "hash1" = Except.ok sampleUser :=
  authorize_success (fun p h => p == h) [sampleUser] "alice" "hash1" sampleUser
    (List.mem_singleton.mpr rfl) (Or.inr rfl)
    (fun v hv _ => List.mem_singleton.mp hv) rfl (by decide)

/-- Claim C3: a login where no record matches the identifier, or the matched
record is unverified, or the bcrypt comparison fails, makes `authorize`
throw (return an error) rather than return a user. -/
theorem authorize_failure (bcompare : String → String → Bool) (db : List UserDoc)
    (identifier password : String)
    (h : findOne db identifier = none ∨
      ∃ u, findOne db identifier = some u ∧
        (u.isVerified = false ∨ bcompare password u.password = false)) :
    ∃ e, authorize bcompare db identifier password = Except.error e := by
  rcases h with h | ⟨u, hu, hcase⟩
  · exact ⟨"Error: User not found with this email/username", by simp [authorize, h]⟩
  · rcases Bool.eq_false_or_eq_true u.isVerified with hver | hver
    · rcases hcase with hv | hp
      · exact absurd hver (by simp [hv])
      · exact ⟨"Error: Incorrect Password", by simp [authorize, hu, hver, hp]⟩
    · exact ⟨"Error: Please verify your account first", by simp [authorize, hu, hver]⟩

/-- Witness for C3 at a concrete input: a nonexistent identifier against a
one-user collection. -/
theorem authorize_failure_witness :
    ∃ e, authorize (fun p h => p == h) [sampleUser] "nobody" "pw" = Except.error e :=
  authorize_failure (fun p h => p == h) [sampleUser] "nobody" "pw"
    (Or.inl (by decide))

/-- When `findByIdAndUpdate` updates a document, `findById` on the resulting
collection returns that document, and its flag carries the written value. -/
theorem findByIdAndUpdate_found (db : List UserDoc) (id : String) (b : Bool)
    (u : UserDoc) (db' : List UserDoc)
    (h : findByIdAndUpdate db id b = (some u, db')) :
    findById db' id = some u ∧ u.isAcceptingMessage = b := by
  induction db generalizing db' with
  | nil => simp [findByIdAndUpdate] at h
  | cons w rest ih =>
    by_cases hw : w._id = id
    · simp only [findByIdAndUpdate, if_pos hw] at h
      obtain ⟨h1, h2⟩ := Prod.mk.injEq _ _ _ _ ▸ h
      obtain rfl := Option.some.injEq _ _ ▸ h1
      subst h2
      constructor
      · simp [findById, hw]
      · rfl
    · rcases hrec : findByIdAndUpdate rest id b with ⟨r, rest'⟩
      simp only [findByIdAndUpdate, if_neg hw, hrec] at h
      obtain ⟨h1, h2⟩ := Prod.mk.injEq _ _ _ _ ▸ h
      subst h1
      subst h2
      have := ih rest' hrec
      exact ⟨by simp [findById, hw, this.1], this.2⟩

/-- Claim C4: for an authenticated user, after a POST to
`/api/accept-messages` with body `{acceptMessages: b}` that returns
status 200, a subsequent GET for the same user returns status 200 with
`isAcceptingMessages` equal to `b`. -/
theorem post_then_get (u : SessionUser) (b : Bool) (db db' : List UserDoc)
    (resp : HResponse)
    (hpost : AcceptMessages.POST (some { user := some u }) (Except.ok b) db =
      Except.ok (resp, db'))
    (h200 : resp.status = 200) :
    (AcceptMessages.GET (some { user := some u }) db').status = 200 ∧
    (AcceptMessages.GET (some { user := some u }) db').isAcceptingMessages = some b := by
  rcases hrec : findByIdAndUpdate db u._id b with ⟨r, db2⟩
  cases r with
  | none =>
    simp [AcceptMessages.POST, hrec] at hpost
    obtain ⟨rfl, rfl⟩ := hpost
    simp at h200
  | some uu =>
    simp [AcceptMessages.POST, hrec] at hpost
    obtain ⟨rfl, rfl⟩ := hpost
    obtain ⟨hf, hb⟩ := findByIdAndUpdate_found db u._id b uu db2 hrec
    simp [AcceptMessages.GET, hf, hb]

/-- Witness for C4 at a concrete input: the sample user's flag is set to
`true` by POST and read back as `true` by GET. -/
theorem post_then_get_witness :
    (AcceptMessages.GET (some { user := some { _id := "id1" } })
      [{ sampleUser with isAcceptingMessage := true }]).status = 200 ∧
    (AcceptMessages.GET (some { user := some { _id := "id1" } })
      [{ sampleUser with isAcceptingMessage := true }]).isAcceptingMessages = some true :=
  post_then_get { _id := "id1" } true [sampleUser]
    [{ sampleUser with isAcceptingMessage := true }]
    { status := 200, success := true,
      message := some "Updated user status to accept messages",
      isAcceptingMessages := none,
      updatedUser := some { sampleUser with isAcceptingMessage := true } }
    rfl rfl

/-- Claim C6: a request to POST or GET `/api/accept-messages` with no
authenticated session (no session, or a session without a user) returns
status 401 with `success: false`. -/
theorem accept_messages_unauthenticated_401 (session : Option SessionData)
    (body : Except String Bool) (db : List UserDoc)
    (h : session = none ∨ ∃ s, session = some s ∧ s.user = none) :
    (∃ resp db2, AcceptMessages.POST session body db = Except.ok (resp, db2) ∧
      resp.status = 401 ∧ resp.success = false) ∧
    (AcceptMessages.GET session db).status = 401 ∧
    (AcceptMessages.GET session db).success = false := by
  rcases h with rfl | ⟨s, rfl, hu⟩
  · exact ⟨⟨notAuthenticatedResp, db, rfl, rfl, rfl⟩, rfl, rfl⟩
  · refine ⟨⟨notAuthenticatedResp, db, ?_, rfl, rfl⟩, ?_, ?_⟩ <;>
      simp [AcceptMessages.POST, AcceptMessages.GET, hu, notAuthenticatedResp]

/-- Witness for C6 at a concrete input: a sessionless request against the
one-user collection. -/
theorem accept_messages_unauthenticated_401_witness :
    (∃ resp db2, AcceptMessages.POST none (Except.ok true) [sampleUser] =
      Except.ok (resp, db2) ∧ resp.status = 401 ∧ resp.success = false) ∧
    (AcceptMessages.GET none [sampleUser]).status = 401 ∧
    (AcceptMessages.GET none [sampleUser]).success = false :=
  accept_messages_unauthenticated_401 none (Except.ok true) [sampleUser] (Or.inl rfl)

/-- Claim C10: an unauthenticated POST to `/api/accept-messages` returns the
401 response with the collection unchanged, and does so before reading the
request body: the result is the same whatever the body, including a body
whose parse would throw. -/
theorem post_unauthenticated_no_update (session : Option SessionData)
    (body body2 : Except String Bool) (db : List UserDoc)
    (h : session = none ∨ ∃ s, session = some s ∧ s.user = none) :
    AcceptMessages.POST session body db = Except.ok (notAuthenticatedResp, db) ∧
    AcceptMessages.POST session body db = AcceptMessages.POST session body2 db := by
  rcases h with rfl | ⟨s, rfl, hu⟩
  · exact ⟨rfl, rfl⟩
  · constructor <;> simp [AcceptMessages.POST, hu]

/-- Witness for C10 at a concrete input: a session without a user, a body
whose parse throws, and the one-user collection. -/
theorem post_unauthenticated_no_update_witness :
    AcceptMessages.POST (some { user := none }) (Except.error "bad json") [sampleUser] =
      Except.ok (notAuthenticatedResp, [sampleUser]) ∧
    AcceptMessages.POST (some { user := none }) (Except.error "bad json") [sampleUser] =
      AcceptMessages.POST (some { user := none }) (Except.ok false) [sampleUser] :=
  post_unauthenticated_no_update (some { user := none }) (Except.error "bad json")
    (Except.ok false) [sampleUser] (Or.inr ⟨{ user := none }, rfl, rfl⟩)

/-- Claim C8: the message content schema accepts `{content: s}` exactly when
the length of `s` is at least 10 and at most 300. -/
theorem messageSchema_length_bounds (input : MessageInput) :
    (messageSchema input).isOk = true ↔
      10 ≤ input.content.length ∧ input.content.length ≤ 300 := by
  unfold messageSchema
  split
  · next h1 => simp [Except.isOk, Except.toBool]; omega
  · next h1 =>
    split
    · next h2 => simp [Except.isOk, Except.toBool]; omega
    · next h2 => simp [Except.isOk, Except.toBool]; omega
